import Mathlib

/-!
Verification development for a Go Twilio-voice / OpenAI realtime bridge.
The embedding models the wire values as a JSON datatype, the two reader
loops as functions over traces of socket reads, and the webhook as an
oracle from POST bodies to HTTP outcomes.
-/

/-- JSON values as exchanged on both sockets. Numbers are modelled as
rationals (the source only ever sends the literal 0.8). Objects are
association lists in source order. -/
inductive Json where
  | null : Json
  | bool (b : Bool) : Json
  | num (q : Rat) : Json
  | str (s : String) : Json
  | arr (xs : List Json) : Json
  | obj (fields : List (String × Json)) : Json

/-- Lookup of a key in a JSON object; `none` when the value is not an
object, modelling a failed Go type assertion to `map[string]interface{}`
(indexing the resulting nil map yields no entry). -/
def Json.lookup : Json → String → Option Json
  | .obj fields, k => List.lookup k fields
  | _, _ => none

/-- Go type assertion `.(string)`. -/
def Json.asString : Json → Option String
  | .str s => some s
  | _ => none

/-- Combined lookup-and-assert: `v, ok := m[k].(string)`. -/
def getStr (j : Json) (k : String) : Option String :=
  (j.lookup k).bind Json.asString


/-- Process configuration read by `Run` from the environment:
OPENAI_API_KEY, SYSTEM_MESSAGE, PORT, GREETINGS_RESPONSE, WEBHOOK_URL. -/
structure Config where
  openAIAPIKey : String
  systemMessage : String
  port : String
  xmlResponse : String
  webhook_url : String

/-- The function `Run` calls `log.Fatal` when any of the five variables is
empty, so a configuration under which the server starts has all fields
non-empty. -/
def Config.valid (c : Config) : Prop :=
  c.openAIAPIKey ≠ "" ∧ c.systemMessage ≠ "" ∧ c.port ≠ "" ∧
  c.xmlResponse ≠ "" ∧ c.webhook_url ≠ ""

instance (c : Config) : Decidable c.valid := by
  unfold Config.valid; infer_instance

/-- The `setup_schedule` tool schema, an element of the `tools` list of the
`sessionUpdate` package variable, translated literally. -/
def toolSchemaJson : Json :=
  .obj [
    ("type", .str "function"),
    ("name", .str "setup_schedule"),
    ("description", .str "Setup business meeting schedule"),
    ("parameters", .obj [
      ("type", .str "object"),
      ("properties", .obj [
        ("name", .obj [
          ("type", .str "string"),
          ("description", .str "Please tell me your name")]),
        ("email", .obj [
          ("format", .str "email"),
          ("type", .str "string"),
          ("description", .str "please provide your email address")]),
        ("datetime", .obj [
          ("type", .str "string"),
          ("format", .str "date-time"),
          ("description", .str "Please provide the date and time of the meeting")]),
        ("description", .obj [
          ("type", .str "string"),
          ("description", .str "what is the purpose of the meeting?")])]),
      ("required", .arr [.str "name", .str "email", .str "description"])])]

/-- The `sessionUpdate` package variable as a function of the string stored
in its `instructions` field. -/
def sessionUpdateJson (instructions : String) : Json :=
  .obj [
    ("type", .str "session.update"),
    ("session", .obj [
      ("turn_detection", .obj [("type", .str "server_vad")]),
      ("input_audio_format", .str "g711_ulaw"),
      ("output_audio_format", .str "g711_ulaw"),
      ("voice", .str "alloy"),
      ("instructions", .str instructions),
      ("modalities", .arr [.str "text", .str "audio"]),
      ("temperature", .num (0.8 : Rat)),
      ("tools", .arr [toolSchemaJson])])]

/-- The `firstResponseUpdate` package variable as a function of the greeting
text stored in it. -/
def firstResponseUpdateJson (text : String) : Json :=
  .obj [
    ("type", .str "conversation.item.create"),
    ("item", .obj [
      ("id", .str "greeting_01"),
      ("type", .str "message"),
      ("role", .str "assistant"),
      ("content", .arr [.obj [
        ("type", .str "text"),
        ("text", .str text)]])])]

/-- The `response.create` trigger event, built inline in `handleMediaStream`
and in `handleOpenAIMessages`. -/
def responseCreateJson : Json :=
  .obj [("type", .str "response.create")]

/-- The value held by the package variable `sessionUpdate` when a session
runs. Go initializes package-level variables before `Run` executes, and at
that point `systemMessage` still has its zero value `""`; the later
assignment `systemMessage = os.Getenv("SYSTEM_MESSAGE")` does not
re-evaluate the map literal, so the stored instructions string is `""`. -/
def initSessionUpdate : Json := sessionUpdateJson ""

/-- The value held by the package variable `firstResponseUpdate` when a
session runs: `xmlResponse` is `""` at package-initialization time, so the
stored greeting text is `""`. -/
def initFirstResponseUpdate : Json := firstResponseUpdateJson ""

/-- The three handshake events `handleMediaStream` writes to the AI socket,
in order, right after dialing it (and after starting the AI reader):
`sessionUpdate`, `firstResponseUpdate`, then the `response.create`
trigger. -/
def handshakeWrites : List Json :=
  [initSessionUpdate, initFirstResponseUpdate, responseCreateJson]

/-- Field path `session.instructions` of a configuration event. -/
def sessionInstructionsOf (j : Json) : Option Json :=
  (j.lookup "session").bind (fun s => s.lookup "instructions")

/-- Field path `item.content[0].text` of a greeting event. -/
def greetingTextOf (j : Json) : Option Json :=
  ((j.lookup "item").bind (fun i => i.lookup "content")).bind (fun c =>
    match c with
    | .arr (first :: _) => first.lookup "text"
    | _ => none)


/-- The `input_audio_buffer.append` event `handleTwilioMessages` builds for
a `media` frame. -/
def audioAppendEvent (payload : String) : Json :=
  .obj [
    ("type", .str "input_audio_buffer.append"),
    ("audio", .str payload)]

/-- The outbound telephony `media` event `handleOpenAIMessages` builds for
a `response.audio.delta` event. -/
def mediaEvent (sid payload : String) : Json :=
  .obj [
    ("event", .str "media"),
    ("streamSid", .str sid),
    ("media", .obj [("payload", .str payload)])]

/-- The `conversation.item.create` completion event `handleOpenAIMessages`
writes back to the AI socket after a successful webhook call
(`webhookResponse` in the source). -/
def webhookOutputEvent (callId : String) : Json :=
  .obj [
    ("type", .str "conversation.item.create"),
    ("item", .obj [
      ("call_id", .str callId),
      ("type", .str "function_call_output"),
      ("output", .str "Your schedule has been set successfully!")])]

/-- The JSON body `setupSchedule` marshals and POSTs to the webhook URL:
the anonymous struct with tags name, email, datetime, description,
phone_number, in declaration order. -/
def scheduleBody (name email datetime description phoneNumber : String) : Json :=
  .obj [
    ("name", .str name),
    ("email", .str email),
    ("datetime", .str datetime),
    ("description", .str description),
    ("phone_number", .str phoneNumber)]

/-- Outcome of the webhook HTTP POST performed by `client.Do`: either an
HTTP response with a status code, or a transport-level error with a
cause. -/
inductive WebhookResult where
  | response (status : Nat) : WebhookResult
  | transportErr (cause : String) : WebhookResult

/-- The errors `setupSchedule` can return: a non-200 status
(`unexpected status code: %d`) or a request/transport failure
(`error sending request: %v`). Marshaling a struct of five strings cannot
fail, so that error path is vacuous and not modelled. -/
inductive ScheduleError where
  | unexpectedStatus (code : Nat) : ScheduleError
  | requestError (cause : String) : ScheduleError

/-- A webhook oracle maps the POSTed JSON body to the HTTP outcome,
abstracting the network. -/
def WebhookOracle := Json → WebhookResult

/-- Model of `setupSchedule`: marshal the schedule body, POST it, succeed
exactly on HTTP 200, otherwise report the status code or the transport
cause. -/
def setupSchedule (oracle : WebhookOracle) (name email datetime description phoneNumber : String) :
    Except ScheduleError Unit :=
  match oracle (scheduleBody name email datetime description phoneNumber) with
  | .transportErr cause => .error (.requestError cause)
  | .response status =>
    if status = 200 then .ok () else .error (.unexpectedStatus status)

/-- Whitespace characters skipped by the Go JSON decoder. -/
def isJsonWs (c : Char) : Bool := c = ' ' || c = '\t' || c = '\n' || c = '\r'

/-- Skip leading JSON whitespace. -/
def skipWs : List Char → List Char
  | [] => []
  | c :: cs => if isJsonWs c then skipWs cs else c :: cs

/-- Value of a hexadecimal digit. -/
def hexVal (c : Char) : Option Nat :=
  if '0' ≤ c ∧ c ≤ '9' then some (c.toNat - '0'.toNat)
  else if 'a' ≤ c ∧ c ≤ 'f' then some (c.toNat - 'a'.toNat + 10)
  else if 'A' ≤ c ∧ c ≤ 'F' then some (c.toNat - 'A'.toNat + 10)
  else none

/-- The single-character JSON string escapes. -/
def escChar (c : Char) : Option Char :=
  if c = '"' then some '"'
  else if c = '\\' then some '\\'
  else if c = '/' then some '/'
  else if c = 'b' then some (Char.ofNat 8)
  else if c = 'f' then some (Char.ofNat 12)
  else if c = 'n' then some '\n'
  else if c = 'r' then some '\r'
  else if c = 't' then some '\t'
  else none

/-- Parse the body of a JSON string literal, after the opening quote,
returning the decoded characters and the input after the closing quote.
Models the Go decoder for string values: single-character escapes, 4-hex
unicode escapes, and rejection of raw control characters. Surrogate-pair
combination is not modelled (a lone escape for a non-scalar code point
decodes as U+0000 here). Fuel bounds the recursion; callers supply more
fuel than remaining characters. -/
def parseStringBody : Nat → List Char → Option (List Char × List Char)
  | 0, _ => none
  | _, [] => none
  | fuel + 1, c :: rest =>
    if c = '"' then some ([], rest)
    else if c = '\\' then
      match rest with
      | [] => none
      | e :: rest2 =>
        if e = 'u' then
          match rest2 with
          | a :: b :: c2 :: d :: rest3 =>
            match hexVal a, hexVal b, hexVal c2, hexVal d with
            | some ha, some hb, some hc, some hd =>
              (parseStringBody fuel rest3).map
                (fun r => (Char.ofNat (((ha * 16 + hb) * 16 + hc) * 16 + hd) :: r.1, r.2))
            | _, _, _, _ => none
          | _ => none
        else
          match escChar e with
          | some ch => (parseStringBody fuel rest2).map (fun r => (ch :: r.1, r.2))
          | none => none
    else if c.toNat < 32 then none
    else (parseStringBody fuel rest).map (fun r => (c :: r.1, r.2))

/-- Insertion with overwrite, the Go map semantics for duplicate JSON
object keys (the last occurrence wins). -/
def insertEntry (m : List (String × String)) (k v : String) : List (String × String) :=
  match m with
  | [] => [(k, v)]
  | (k', v') :: rest => if k' = k then (k, v) :: rest else (k', v') :: insertEntry rest k v

/-- Parse one or more `key : value` members of a JSON object, after the
opening brace of a non-empty object, ending at the closing brace. A member
value must be a JSON string or the literal `null` — Go's Unmarshal into
`map[string]string` rejects any other value kind, while a null member
value produces no error and leaves the element at its zero value `""`. -/
def parseMembers : Nat → List (String × String) → List Char →
    Option (List (String × String) × List Char)
  | 0, _, _ => none
  | fuel + 1, acc, l =>
    match skipWs l with
    | '"' :: rest =>
      match parseStringBody (rest.length + 1) rest with
      | some (key, rest2) =>
        match skipWs rest2 with
        | ':' :: rest3 =>
          match skipWs rest3 with
          | '"' :: rest4 =>
            match parseStringBody (rest4.length + 1) rest4 with
            | some (val, rest5) =>
              let acc2 := insertEntry acc (String.mk key) (String.mk val)
              match skipWs rest5 with
              | ',' :: rest6 => parseMembers fuel acc2 rest6
              | '\x7d' :: rest6 => some (acc2, rest6)
              | _ => none
            | none => none
          | 'n' :: 'u' :: 'l' :: 'l' :: rest4 =>
            let acc2 := insertEntry acc (String.mk key) ""
            match skipWs rest4 with
            | ',' :: rest5 => parseMembers fuel acc2 rest5
            | '\x7d' :: rest5 => some (acc2, rest5)
            | _ => none
          | _ => none
        | _ => none
      | none => none
    | _ => none

/-- Model of `json.Unmarshal(data, &m)` for `m : map[string]string`, as
`handleOpenAIMessages` applies it to the function-call `arguments` string:
leading and trailing whitespace is allowed, the top-level value must be an
object or the literal `null` (which Go decodes without error by setting
the map to nil, indistinguishable from empty under indexing), member
values must be strings or `null`, and trailing garbage is an error.
Returns the map as an association list with unique keys. -/
def unmarshalStringMap (s : String) : Option (List (String × String)) :=
  let l := s.toList
  match skipWs l with
  | '\x7b' :: rest =>
    match skipWs rest with
    | '\x7d' :: rest2 => if skipWs rest2 = [] then some [] else none
    | _ =>
      match parseMembers (l.length + 1) [] rest with
      | some (m, rest2) => if skipWs rest2 = [] then some m else none
      | none => none
  | 'n' :: 'u' :: 'l' :: 'l' :: rest => if skipWs rest = [] then some [] else none
  | _ => none

/-- Go map indexing with the string zero value: `data[k]` yields `""` when
the key is absent. -/
def mapGetD (m : List (String × String)) (k : String) : String :=
  (List.lookup k m).getD ""


/-- The audio payload `handleTwilioMessages` extracts from a `media` frame:
`media, _ := data["media"].(map[string]interface{})` followed by
`payload, _ := media["payload"].(string)`; each failed assertion falls
through to the zero value, so the result is `""` whenever the `media`
object or its `payload` string is absent or of the wrong shape. -/
def mediaPayloadOf (j : Json) : String :=
  (((j.lookup "media").bind (fun m => m.lookup "payload")).bind Json.asString).getD ""

/-- The stream identifier `handleTwilioMessages` stores on a `start` frame:
`start, _ := data["start"].(map[string]interface{})` followed by
`*streamSid, _ = start["streamSid"].(string)`; any `start` frame
overwrites the session identifier, with `""` when the field is missing or
not a string. -/
def startSidOf (j : Json) : String :=
  (((j.lookup "start").bind (fun s => s.lookup "streamSid")).bind Json.asString).getD ""

/-- One iteration of the `handleTwilioMessages` switch on a decoded frame:
returns the events written to the AI socket and the updated stream
identifier. A `media` frame yields one `input_audio_buffer.append`; a
`start` frame stores the stream identifier; anything else is logged and
ignored. The `event` discriminator itself defaults to `""` on a failed
assertion, landing in the default branch. -/
def twilioStep (j : Json) (sid : String) : List Json × String :=
  let event := (getStr j "event").getD ""
  if event = "media" then ([audioAppendEvent (mediaPayloadOf j)], sid)
  else if event = "start" then ([], startSidOf j)
  else ([], sid)

/-- The side effects of processing AI events: writes to the AI socket,
writes to the telephony socket, and webhook POST bodies, each in emission
order. -/
structure Effects where
  aiWrites : List Json
  twilioWrites : List Json
  posts : List Json

/-- No effects. -/
def Effects.empty : Effects := ⟨[], [], []⟩

/-- Concatenation of effects in sequence. -/
def Effects.app (e₁ e₂ : Effects) : Effects :=
  ⟨e₁.aiWrites ++ e₂.aiWrites, e₁.twilioWrites ++ e₂.twilioWrites, e₁.posts ++ e₂.posts⟩

instance : Append Effects := ⟨Effects.app⟩

lemma Effects.aiWrites_app (e₁ e₂ : Effects) :
    (e₁ ++ e₂).aiWrites = e₁.aiWrites ++ e₂.aiWrites := rfl

lemma Effects.twilioWrites_app (e₁ e₂ : Effects) :
    (e₁ ++ e₂).twilioWrites = e₁.twilioWrites ++ e₂.twilioWrites := rfl

lemma Effects.posts_app (e₁ e₂ : Effects) :
    (e₁ ++ e₂).posts = e₁.posts ++ e₂.posts := rfl

/-- The audio forwarding performed for one decoded AI event: when its type
is `response.audio.delta` and its `delta` field is a string, exactly one
telephony `media` event built from the current stream identifier and the
delta payload; otherwise nothing. -/
def audioDeltaWrites (sid : String) (j : Json) : List Json :=
  if (getStr j "type").getD "" = "response.audio.delta" then
    match getStr j "delta" with
    | some d => [mediaEvent sid d]
    | none => []
  else []

/-- The shape checks `handleOpenAIMessages` performs before dispatching a
function call: the event must carry a `response` object whose `output` list
is non-empty and whose first element has string fields `type`, `name`,
`arguments` and `call_id` (a non-object first element fails all four
assertions), and the call must be the recognized `function_call` named
`setup_schedule`. Returns the arguments string and the call identifier, or
`none` when the event is to be silently skipped. -/
def fnCallRequestOf (j : Json) : Option (String × String) :=
  match j.lookup "response" with
  | some (.obj respFields) =>
    match List.lookup "output" respFields with
    | some (.arr output) =>
      match output with
      | [] => none
      | firstOutput :: _ =>
        match getStr firstOutput "type", getStr firstOutput "name",
              getStr firstOutput "arguments", getStr firstOutput "call_id" with
        | some outputType, some name, some arguments, some callId =>
          if outputType = "function_call" ∧ name = "setup_schedule" then
            some (arguments, callId)
          else none
        | _, _, _, _ => none
    | _ => none
  | _ => none

/-- The effects of one `setup_schedule` call whose arguments already parsed
to the flat string map `data`: POST the webhook (each absent argument field
passing through as the empty string), and on success write the completion
event and a `response.create` trigger to the AI socket; on webhook failure
the error is only logged and nothing is written. -/
def dispatchParsed (oracle : WebhookOracle) (phone callId : String)
    (data : List (String × String)) : Effects :=
  match setupSchedule oracle (mapGetD data "name") (mapGetD data "email")
    (mapGetD data "datetime") (mapGetD data "description") phone with
  | .ok _ =>
    ⟨[webhookOutputEvent callId, responseCreateJson], [],
     [scheduleBody (mapGetD data "name") (mapGetD data "email")
       (mapGetD data "datetime") (mapGetD data "description") phone]⟩
  | .error _ =>
    ⟨[], [],
     [scheduleBody (mapGetD data "name") (mapGetD data "email")
       (mapGetD data "datetime") (mapGetD data "description") phone]⟩

/-- The dispatch of one recognized `setup_schedule` call: decode the
`arguments` string into a flat string map, abandoning the call on a decode
error, then proceed with the parsed arguments. -/
def dispatchSchedule (oracle : WebhookOracle) (phone arguments callId : String) : Effects :=
  match unmarshalStringMap arguments with
  | none => Effects.empty
  | some data => dispatchParsed oracle phone callId data

/-- The function-call handling performed for one decoded AI event: the
shape checks followed, on a recognized call, by the dispatch; an event
failing the shape checks is silently skipped. -/
def fnCallStep (oracle : WebhookOracle) (phone : String) (j : Json) : Effects :=
  match fnCallRequestOf j with
  | some (arguments, callId) => dispatchSchedule oracle phone arguments callId
  | none => Effects.empty

/-- One iteration of `handleOpenAIMessages` on a decoded AI event: an
`error`-typed event is logged and skipped entirely; otherwise the audio
forwarding and the function-call dispatch both run, reading the stream
identifier at write time. -/
def openAIStep (oracle : WebhookOracle) (phone sid : String) (j : Json) : Effects :=
  let t := (getStr j "type").getD ""
  if t = "error" then Effects.empty
  else
    let fn := fnCallStep oracle phone j
    ⟨fn.aiWrites, audioDeltaWrites sid j ++ fn.twilioWrites, fn.posts⟩

/-- One read from a WebSocket as seen by a reader loop: a socket-level read
error, or a frame whose JSON decoding into `map[string]interface{}` either
failed (`none`) or produced an object (`some`). -/
inductive SocketRead where
  | readErr : SocketRead
  | frame (decoded : Option Json) : SocketRead

/-- The `handleTwilioMessages` loop over a trace of reads: a read error
returns (terminating the loop, the rest of the trace never being read); a
decode failure is logged and skipped; a decoded frame is dispatched by
`twilioStep`. Returns the AI-socket writes in order and the final stream
identifier. -/
def runTwilioLoop (sid : String) : List SocketRead → List Json × String
  | [] => ([], sid)
  | .readErr :: _ => ([], sid)
  | .frame none :: rest => runTwilioLoop sid rest
  | .frame (some j) :: rest =>
    let step := twilioStep j sid
    let tail := runTwilioLoop step.2 rest
    (step.1 ++ tail.1, tail.2)

/-- The `handleOpenAIMessages` loop over a trace of reads, with a fixed
stream identifier (the concurrent interleaving with the telephony reader
is modelled separately by `bridgeRun`): a read error terminates the loop,
a decode failure is skipped, a decoded event is dispatched by
`openAIStep`. -/
def runAILoop (oracle : WebhookOracle) (phone sid : String) : List SocketRead → Effects
  | [] => Effects.empty
  | .readErr :: _ => Effects.empty
  | .frame none :: rest => runAILoop oracle phone sid rest
  | .frame (some j) :: rest => openAIStep oracle phone sid j ++ runAILoop oracle phone sid rest

/-- The frames a reader loop actually dispatches on: the decoded frames of
the trace up to, and not including, the first socket read error. -/
def processedFrames : List SocketRead → List Json
  | [] => []
  | .readErr :: _ => []
  | .frame none :: rest => processedFrames rest
  | .frame (some j) :: rest => j :: processedFrames rest

/-- The `input_audio_buffer.append` events the telephony reader should emit
for a trace: one per processed `media` frame, built from its extracted
payload, in arrival order. -/
def mediaAppendsOf (tr : List SocketRead) : List Json :=
  (processedFrames tr).filterMap (fun j =>
    if (getStr j "event").getD "" = "media" then some (audioAppendEvent (mediaPayloadOf j))
    else none)

/-- One read in an interleaved execution of the two reader loops,
identifying which socket it came from. -/
inductive BridgeRead where
  | tw (r : SocketRead) : BridgeRead
  | ai (r : SocketRead) : BridgeRead

/-- The per-session state the two reader loops share: the stream
identifier (written only by the telephony reader, read by the AI reader at
write time) and whether each loop has returned. -/
structure BridgeState where
  streamSid : String
  twDone : Bool
  aiDone : Bool

/-- One read handled in an interleaved execution of the two reader loops.
A read belonging to a loop that has already returned is ignored (that loop
performs no further reads); otherwise it is handled exactly as in the
loop's own model, the telephony reader updating the shared stream
identifier and the AI reader reading it at dispatch time. -/
def bridgeStep (oracle : WebhookOracle) (phone : String) (st : BridgeState) :
    BridgeRead → Effects × BridgeState
  | .tw r =>
    if st.twDone then (Effects.empty, st)
    else
      match r with
      | .readErr => (Effects.empty, { st with twDone := true })
      | .frame none => (Effects.empty, st)
      | .frame (some j) =>
        let step := twilioStep j st.streamSid
        ((⟨step.1, [], []⟩ : Effects), { st with streamSid := step.2 })
  | .ai r =>
    if st.aiDone then (Effects.empty, st)
    else
      match r with
      | .readErr => (Effects.empty, { st with aiDone := true })
      | .frame none => (Effects.empty, st)
      | .frame (some j) => (openAIStep oracle phone st.streamSid j, st)

/-- An interleaved execution of the two reader loops of one session over a
combined trace, accumulating the effects of every read in order. -/
def bridgeRun (oracle : WebhookOracle) (phone : String) :
    BridgeState → List BridgeRead → Effects × BridgeState
  | st, [] => (Effects.empty, st)
  | st, r :: rest =>
    let step := bridgeStep oracle phone st r
    let tail := bridgeRun oracle phone step.2 rest
    (step.1 ++ tail.1, tail.2)

/-- A combined trace contains no telephony `start` frame, the only kind of
read that can modify the stream identifier. -/
def noTwStart : List BridgeRead → Prop
  | [] => True
  | .tw (.frame (some j)) :: rest =>
    ¬ ((getStr j "event").getD "" = "start") ∧ noTwStart rest
  | _ :: rest => noTwStart rest

instance : ∀ tr, Decidable (noTwStart tr)
  | [] => by unfold noTwStart; infer_instance
  | .tw (.frame (some _)) :: rest =>
    have := instDecidableNoTwStart rest
    by unfold noTwStart; infer_instance
  | .tw .readErr :: rest =>
    have := instDecidableNoTwStart rest
    by unfold noTwStart; infer_instance
  | .tw (.frame none) :: rest =>
    have := instDecidableNoTwStart rest
    by unfold noTwStart; infer_instance
  | .ai _ :: rest =>
    have := instDecidableNoTwStart rest
    by unfold noTwStart; infer_instance

lemma twilioStep_fst (j : Json) (sid : String) :
    (twilioStep j sid).1 =
      if (getStr j "event").getD "" = "media" then [audioAppendEvent (mediaPayloadOf j)]
      else [] := by
  unfold twilioStep
  by_cases h1 : (getStr j "event").getD "" = "media"
  · simp [h1]
  · by_cases h2 : (getStr j "event").getD "" = "start" <;> simp [h1, h2]

lemma twilioStep_snd_of_ne_start (j : Json) (sid : String)
    (h : (getStr j "event").getD "" ≠ "start") : (twilioStep j sid).2 = sid := by
  unfold twilioStep
  by_cases h1 : (getStr j "event").getD "" = "media" <;> simp [h1, h]

lemma mediaAppendsOf_cons_some (j : Json) (rest : List SocketRead) :
    mediaAppendsOf (SocketRead.frame (some j) :: rest) =
      (if (getStr j "event").getD "" = "media" then [audioAppendEvent (mediaPayloadOf j)]
       else []) ++ mediaAppendsOf rest := by
  have h1 : processedFrames (SocketRead.frame (some j) :: rest) = j :: processedFrames rest := rfl
  unfold mediaAppendsOf
  rw [h1, List.filterMap_cons]
  by_cases h : (getStr j "event").getD "" = "media" <;> simp [h]

lemma runTwilioLoop_eq_mediaAppendsOf (sid : String) (tr : List SocketRead) :
    (runTwilioLoop sid tr).1 = mediaAppendsOf tr := by
  induction tr generalizing sid with
  | nil => rfl
  | cons head rest ih =>
    cases head with
    | readErr => rfl
    | frame d =>
      cases d with
      | none =>
        show (runTwilioLoop sid rest).1 = mediaAppendsOf (SocketRead.frame none :: rest)
        rw [ih]
        rfl
      | some j =>
        show (twilioStep j sid).1 ++ (runTwilioLoop (twilioStep j sid).2 rest).1 =
          mediaAppendsOf (SocketRead.frame (some j) :: rest)
        rw [ih, twilioStep_fst, mediaAppendsOf_cons_some]

/-- C2: over any telephony trace, the writes of the telephony reader to the
AI socket are exactly one `input_audio_buffer.append` per processed `media`
frame, in arrival order; a media frame with a well-formed payload string
contributes the append event whose `audio` field equals that payload. -/
theorem twilio_reader_forwards_media_in_order :
    (∀ (sid : String) (tr : List SocketRead), (runTwilioLoop sid tr).1 = mediaAppendsOf tr) ∧
    (∀ (j : Json) (p : String),
      ((j.lookup "media").bind (fun m => m.lookup "payload")).bind Json.asString = some p →
      mediaPayloadOf j = p) ∧
    (∀ p : String, (audioAppendEvent p).lookup "audio" = some (.str p)) := by
  refine ⟨runTwilioLoop_eq_mediaAppendsOf, ?_, fun p => rfl⟩
  intro j p hp
  unfold mediaPayloadOf
  rw [hp]
  rfl

theorem twilio_reader_forwards_media_in_order_witness :
    (runTwilioLoop ""
      [.frame (some (Json.obj [("event", Json.str "media"),
         ("media", Json.obj [("payload", Json.str "AB")])])),
       .frame none,
       .frame (some (Json.obj [("event", Json.str "start"),
         ("start", Json.obj [("streamSid", Json.str "CA123")])])),
       .frame (some (Json.obj [("event", Json.str "media"),
         ("media", Json.obj [("payload", Json.str "CD")])]))]).1 =
      mediaAppendsOf
      [.frame (some (Json.obj [("event", Json.str "media"),
         ("media", Json.obj [("payload", Json.str "AB")])])),
       .frame none,
       .frame (some (Json.obj [("event", Json.str "start"),
         ("start", Json.obj [("streamSid", Json.str "CA123")])])),
       .frame (some (Json.obj [("event", Json.str "media"),
         ("media", Json.obj [("payload", Json.str "CD")])]))] ∧
    mediaPayloadOf (Json.obj [("event", Json.str "media"),
      ("media", Json.obj [("payload", Json.str "AB")])]) = "AB" ∧
    (audioAppendEvent "AB").lookup "audio" = some (.str "AB") :=
  ⟨twilio_reader_forwards_media_in_order.1 "" _,
   twilio_reader_forwards_media_in_order.2.1
     (Json.obj [("event", Json.str "media"),
       ("media", Json.obj [("payload", Json.str "AB")])]) "AB" rfl,
   twilio_reader_forwards_media_in_order.2.2 "AB"⟩

/-- C1: code bug. The session bridge does send the configuration event,
the greeting event and the trigger event, in that order; but the
instructions and the greeting text it sends are the empty string for every
configuration accepted at startup, because the two package-level event
variables are initialized before `Run` loads the environment. The claim
that these fields equal the configured strings therefore fails on every
run of the program. -/
theorem handshake_sends_stale_empty_config (cfg : Config) (h : cfg.valid) :
    handshakeWrites = [sessionUpdateJson "", firstResponseUpdateJson "", responseCreateJson] ∧
    sessionInstructionsOf initSessionUpdate = some (.str "") ∧
    greetingTextOf initFirstResponseUpdate = some (.str "") ∧
    sessionInstructionsOf initSessionUpdate ≠ some (.str cfg.systemMessage) ∧
    greetingTextOf initFirstResponseUpdate ≠ some (.str cfg.xmlResponse) := by
  refine ⟨rfl, rfl, rfl, ?_, ?_⟩
  · rw [show sessionInstructionsOf initSessionUpdate = some (.str "") from rfl]
    intro hEq
    apply h.2.1
    injection hEq with h1
    injection h1 with h2
    exact h2.symm
  · rw [show greetingTextOf initFirstResponseUpdate = some (.str "") from rfl]
    intro hEq
    apply h.2.2.2.1
    injection hEq with h1
    injection h1 with h2
    exact h2.symm

theorem handshake_sends_stale_empty_config_witness :
    (Config.mk "sk-test" "You are a helpful AI receptionist." "1313"
        "Hello, how can I help you today?" "https://example.com/hook").valid ∧
    (handshakeWrites = [sessionUpdateJson "", firstResponseUpdateJson "", responseCreateJson] ∧
     sessionInstructionsOf initSessionUpdate = some (.str "") ∧
     greetingTextOf initFirstResponseUpdate = some (.str "") ∧
     sessionInstructionsOf initSessionUpdate ≠
       some (.str (Config.mk "sk-test" "You are a helpful AI receptionist." "1313"
         "Hello, how can I help you today?" "https://example.com/hook").systemMessage) ∧
     greetingTextOf initFirstResponseUpdate ≠
       some (.str (Config.mk "sk-test" "You are a helpful AI receptionist." "1313"
         "Hello, how can I help you today?" "https://example.com/hook").xmlResponse)) :=
  ⟨by decide, handshake_sends_stale_empty_config _ (by decide)⟩

lemma dispatchSchedule_twilioWrites (oracle : WebhookOracle) (phone arguments callId : String) :
    (dispatchSchedule oracle phone arguments callId).twilioWrites = [] := by
  unfold dispatchSchedule dispatchParsed
  repeat' split
  all_goals rfl

lemma fnCallStep_twilioWrites (oracle : WebhookOracle) (phone : String) (j : Json) :
    (fnCallStep oracle phone j).twilioWrites = [] := by
  unfold fnCallStep
  split
  · exact dispatchSchedule_twilioWrites oracle phone _ _
  · rfl

lemma audioDeltaWrites_of_delta (sid : String) (j : Json) (d : String)
    (htype : getStr j "type" = some "response.audio.delta")
    (hdelta : getStr j "delta" = some d) :
    audioDeltaWrites sid j = [mediaEvent sid d] := by
  unfold audioDeltaWrites
  rw [htype, hdelta]
  rfl

lemma audioDeltaWrites_sid (sid : String) (j : Json) :
    ∀ w ∈ audioDeltaWrites sid j, w.lookup "streamSid" = some (.str sid) := by
  unfold audioDeltaWrites
  split
  · split
    · intro w hw
      rw [List.mem_singleton] at hw
      subst hw
      rfl
    · intro w hw
      simp at hw
  · intro w hw
    simp at hw

lemma openAIStep_twilioWrites (oracle : WebhookOracle) (phone sid : String) (j : Json) :
    (openAIStep oracle phone sid j).twilioWrites =
      if (getStr j "type").getD "" = "error" then [] else audioDeltaWrites sid j := by
  unfold openAIStep
  by_cases h : (getStr j "type").getD "" = "error"
  · simp [h, Effects.empty]
  · simp [h, fnCallStep_twilioWrites]

lemma bridgeRun_cons (oracle : WebhookOracle) (phone : String) (st : BridgeState)
    (r : BridgeRead) (rest : List BridgeRead) :
    bridgeRun oracle phone st (r :: rest) =
      ((bridgeStep oracle phone st r).1 ++
        (bridgeRun oracle phone (bridgeStep oracle phone st r).2 rest).1,
       (bridgeRun oracle phone (bridgeStep oracle phone st r).2 rest).2) := rfl

lemma bridgeStep_tw_twilioWrites (oracle : WebhookOracle) (phone : String)
    (st : BridgeState) (r : SocketRead) :
    ((bridgeStep oracle phone st (.tw r)).1).twilioWrites = [] := by
  unfold bridgeStep
  by_cases h : st.twDone
  · simp [h, Effects.empty]
  · cases r with
    | readErr => simp [h, Effects.empty]
    | frame d =>
      cases d with
      | none => simp [h, Effects.empty]
      | some j => simp [h]

lemma bridgeStep_tw_sid (oracle : WebhookOracle) (phone : String)
    (st : BridgeState) (r : SocketRead)
    (h : ∀ j, r = SocketRead.frame (some j) → (getStr j "event").getD "" ≠ "start") :
    ((bridgeStep oracle phone st (.tw r)).2).streamSid = st.streamSid := by
  unfold bridgeStep
  by_cases hd : st.twDone
  · simp [hd]
  · cases r with
    | readErr => simp [hd]
    | frame d =>
      cases d with
      | none => simp [hd]
      | some j =>
        simp only [Bool.not_eq_true] at hd
        simp only [hd, Bool.false_eq_true, if_false]
        exact twilioStep_snd_of_ne_start j st.streamSid (h j rfl)

lemma bridgeStep_ai_sid (oracle : WebhookOracle) (phone : String)
    (st : BridgeState) (r : SocketRead) :
    ((bridgeStep oracle phone st (.ai r)).2).streamSid = st.streamSid := by
  unfold bridgeStep
  by_cases hd : st.aiDone
  · simp [hd]
  · cases r with
    | readErr => simp [hd]
    | frame d =>
      cases d with
      | none => simp [hd]
      | some j => simp [hd]

lemma bridgeStep_ai_twilioWrites_sid (oracle : WebhookOracle) (phone : String)
    (st : BridgeState) (r : SocketRead) :
    ∀ w ∈ ((bridgeStep oracle phone st (.ai r)).1).twilioWrites,
      w.lookup "streamSid" = some (.str st.streamSid) := by
  unfold bridgeStep
  by_cases hd : st.aiDone
  · simp [hd, Effects.empty]
  · cases r with
    | readErr => simp [hd, Effects.empty]
    | frame d =>
      cases d with
      | none => simp [hd, Effects.empty]
      | some j =>
        simp only [Bool.not_eq_true] at hd
        simp only [hd, Bool.false_eq_true, if_false]
        intro w hw
        rw [openAIStep_twilioWrites] at hw
        by_cases herr : (getStr j "type").getD "" = "error"
        · rw [if_pos herr] at hw
          simp at hw
        · rw [if_neg herr] at hw
          exact audioDeltaWrites_sid st.streamSid j w hw

lemma bridgeRun_twilioWrites_sid (oracle : WebhookOracle) (phone : String)
    (st : BridgeState) (tr : List BridgeRead) (h : noTwStart tr) :
    ∀ w ∈ ((bridgeRun oracle phone st tr).1).twilioWrites,
      w.lookup "streamSid" = some (.str st.streamSid) := by
  induction tr generalizing st with
  | nil =>
    intro w hw
    simp [bridgeRun, Effects.empty] at hw
  | cons head rest ih =>
    intro w hw
    rw [bridgeRun_cons] at hw
    rw [Effects.twilioWrites_app, List.mem_append] at hw
    cases head with
    | tw r =>
      have hrest : noTwStart rest := by
        cases r with
        | readErr => exact h
        | frame d =>
          cases d with
          | none => exact h
          | some j => exact h.2
      have hcond : ∀ j, r = SocketRead.frame (some j) →
          (getStr j "event").getD "" ≠ "start" := by
        intro j hj
        cases r with
        | readErr => cases hj
        | frame d =>
          cases d with
          | none => cases hj
          | some j2 =>
            injection hj with hj1
            injection hj1 with hj2
            subst hj2
            exact h.1
      rcases hw with hw | hw
      · rw [bridgeStep_tw_twilioWrites] at hw
        simp at hw
      · have := ih (bridgeStep oracle phone st (.tw r)).2 hrest w hw
        rwa [bridgeStep_tw_sid oracle phone st r hcond] at this
    | ai r =>
      have hrest : noTwStart rest := by
        cases r with
        | readErr => exact h
        | frame d =>
          cases d with
          | none => exact h
          | some j => exact h
      rcases hw with hw | hw
      · exact bridgeStep_ai_twilioWrites_sid oracle phone st r w hw
      · have := ih (bridgeStep oracle phone st (.ai r)).2 hrest w hw
        rwa [bridgeStep_ai_sid oracle phone st r] at this

/-- C3: a `response.audio.delta` AI event with a string delta produces
exactly one telephony `media` event, carrying the delta payload and the
session's current stream identifier; and in an interleaved session run, once
a telephony `start` frame carrying streamSid CA123 is processed, every media
event written while no further `start` frame arrives carries streamSid
CA123. -/
theorem ai_delta_forwarded_with_current_sid :
    (∀ (oracle : WebhookOracle) (phone sid : String) (j : Json) (d : String),
      getStr j "type" = some "response.audio.delta" →
      getStr j "delta" = some d →
      (openAIStep oracle phone sid j).twilioWrites = [mediaEvent sid d] ∧
      (mediaEvent sid d).lookup "streamSid" = some (.str sid) ∧
      ((mediaEvent sid d).lookup "media").bind (fun m => m.lookup "payload") =
        some (.str d)) ∧
    (∀ (oracle : WebhookOracle) (phone : String) (st : BridgeState) (startEvt : Json)
      (tr : List BridgeRead),
      getStr startEvt "event" = some "start" →
      startSidOf startEvt = "CA123" →
      st.twDone = false →
      noTwStart tr →
      ∀ w ∈ ((bridgeRun oracle phone st (.tw (.frame (some startEvt)) :: tr)).1).twilioWrites,
        w.lookup "streamSid" = some (.str "CA123")) := by
  constructor
  · intro oracle phone sid j d htype hdelta
    refine ⟨?_, rfl, rfl⟩
    rw [openAIStep_twilioWrites]
    rw [if_neg (by rw [htype]; intro hc; exact absurd hc (by decide))]
    exact audioDeltaWrites_of_delta sid j d htype hdelta
  · intro oracle phone st startEvt tr hstart hsid hdone htr w hw
    have hstep : twilioStep startEvt st.streamSid = ([], "CA123") := by
      unfold twilioStep
      rw [hstart]
      rw [if_neg (by decide), if_pos (by decide), hsid]
    have hbs : bridgeStep oracle phone st (.tw (.frame (some startEvt))) =
        ((⟨[], [], []⟩ : Effects), { st with streamSid := "CA123" }) := by
      show (if st.twDone then (Effects.empty, st)
        else ((⟨(twilioStep startEvt st.streamSid).1, [], []⟩ : Effects),
          { st with streamSid := (twilioStep startEvt st.streamSid).2 })) = _
      rw [if_neg (by rw [hdone]; exact Bool.false_ne_true), hstep]
    rw [bridgeRun_cons, hbs] at hw
    rw [Effects.twilioWrites_app] at hw
    simp only [List.nil_append] at hw
    exact bridgeRun_twilioWrites_sid oracle phone
      { st with streamSid := "CA123" } tr htr w hw

/-- A constant webhook oracle answering HTTP 200, for concrete runs. -/
def okOracle : WebhookOracle := fun _ => .response 200

/-- A concrete telephony `start` frame carrying streamSid CA123. -/
def startEvtCA123 : Json :=
  .obj [("event", .str "start"), ("start", .obj [("streamSid", .str "CA123")])]

/-- A concrete `response.audio.delta` AI event with payload QUJD. -/
def deltaEvtABC : Json :=
  .obj [("type", .str "response.audio.delta"), ("delta", .str "QUJD")]

theorem ai_delta_forwarded_with_current_sid_witness :
    (openAIStep okOracle "p" "CA123" deltaEvtABC).twilioWrites = [mediaEvent "CA123" "QUJD"] ∧
    (mediaEvent "CA123" "QUJD").lookup "streamSid" = some (.str "CA123") :=
  ⟨(ai_delta_forwarded_with_current_sid.1 okOracle "p" "CA123" deltaEvtABC "QUJD" rfl rfl).1,
   ai_delta_forwarded_with_current_sid.2 okOracle "p" ⟨"", false, false⟩ startEvtCA123
     [.ai (.frame (some deltaEvtABC))] rfl rfl rfl (by decide)
     (mediaEvent "CA123" "QUJD")
     (by
       rw [show ((bridgeRun okOracle "p" ⟨"", false, false⟩
         [.tw (.frame (some startEvtCA123)),
          .ai (.frame (some deltaEvtABC))]).1).twilioWrites = [mediaEvent "CA123" "QUJD"]
         from rfl]
       exact List.mem_singleton.mpr rfl)⟩

lemma runTwilioLoop_drop_malformed (sid : String) (tr1 tr2 : List SocketRead) :
    runTwilioLoop sid (tr1 ++ .frame none :: tr2) = runTwilioLoop sid (tr1 ++ tr2) := by
  induction tr1 generalizing sid with
  | nil => rfl
  | cons head rest ih =>
    cases head with
    | readErr => rfl
    | frame d =>
      cases d with
      | none => exact ih sid
      | some j =>
        simp only [List.cons_append, runTwilioLoop, List.append_eq]
        rw [ih]

lemma runAILoop_drop_malformed (oracle : WebhookOracle) (phone sid : String)
    (tr1 tr2 : List SocketRead) :
    runAILoop oracle phone sid (tr1 ++ .frame none :: tr2) =
      runAILoop oracle phone sid (tr1 ++ tr2) := by
  induction tr1 with
  | nil => rfl
  | cons head rest ih =>
    cases head with
    | readErr => rfl
    | frame d =>
      cases d with
      | none => exact ih
      | some j =>
        simp only [List.cons_append, runAILoop, List.append_eq]
        rw [ih]

lemma runTwilioLoop_stops_at_readErr (sid : String) (tr1 tr2 : List SocketRead) :
    runTwilioLoop sid (tr1 ++ .readErr :: tr2) = runTwilioLoop sid (tr1 ++ [.readErr]) := by
  induction tr1 generalizing sid with
  | nil => rfl
  | cons head rest ih =>
    cases head with
    | readErr => rfl
    | frame d =>
      cases d with
      | none => exact ih sid
      | some j =>
        simp only [List.cons_append, runTwilioLoop, List.append_eq]
        rw [ih]

lemma runAILoop_stops_at_readErr (oracle : WebhookOracle) (phone sid : String)
    (tr1 tr2 : List SocketRead) :
    runAILoop oracle phone sid (tr1 ++ .readErr :: tr2) =
      runAILoop oracle phone sid (tr1 ++ [.readErr]) := by
  induction tr1 with
  | nil => rfl
  | cons head rest ih =>
    cases head with
    | readErr => rfl
    | frame d =>
      cases d with
      | none => exact ih
      | some j =>
        simp only [List.cons_append, runAILoop, List.append_eq]
        rw [ih]

/-- C9: on either socket, a frame whose JSON decoding fails is dropped
wherever it occurs in the trace and the reader loop continues identically,
while a socket-level read error ends processing at that point — the
remainder of the trace after the read error contributes nothing. -/
theorem malformed_json_nonfatal_read_error_fatal :
    (∀ (sid : String) (tr1 tr2 : List SocketRead),
      runTwilioLoop sid (tr1 ++ .frame none :: tr2) = runTwilioLoop sid (tr1 ++ tr2)) ∧
    (∀ (oracle : WebhookOracle) (phone sid : String) (tr1 tr2 : List SocketRead),
      runAILoop oracle phone sid (tr1 ++ .frame none :: tr2) =
        runAILoop oracle phone sid (tr1 ++ tr2)) ∧
    (∀ (sid : String) (tr1 tr2 : List SocketRead),
      runTwilioLoop sid (tr1 ++ .readErr :: tr2) = runTwilioLoop sid (tr1 ++ [.readErr])) ∧
    (∀ (oracle : WebhookOracle) (phone sid : String) (tr1 tr2 : List SocketRead),
      runAILoop oracle phone sid (tr1 ++ .readErr :: tr2) =
        runAILoop oracle phone sid (tr1 ++ [.readErr])) :=
  ⟨runTwilioLoop_drop_malformed, runAILoop_drop_malformed,
   runTwilioLoop_stops_at_readErr, runAILoop_stops_at_readErr⟩

/-- C10: a telephony `media` frame whose `media` object or `payload` field
is absent or not a string still produces exactly one
`input_audio_buffer.append` event to the AI socket, carrying the empty
audio string, and the reader continues with the rest of the trace. -/
theorem media_frame_without_payload_appends_empty (j : Json) (sid : String)
    (hevent : getStr j "event" = some "media")
    (hpayload :
      ((j.lookup "media").bind (fun m => m.lookup "payload")).bind Json.asString = none) :
    twilioStep j sid = ([audioAppendEvent ""], sid) ∧
    ∀ rest : List SocketRead,
      runTwilioLoop sid (.frame (some j) :: rest) =
        (audioAppendEvent "" :: (runTwilioLoop sid rest).1, (runTwilioLoop sid rest).2) := by
  have hpay : mediaPayloadOf j = "" := by
    unfold mediaPayloadOf
    rw [hpayload]
    rfl
  have hstep : twilioStep j sid = ([audioAppendEvent ""], sid) := by
    unfold twilioStep
    rw [hevent]
    rw [if_pos (by rfl), hpay]
  refine ⟨hstep, ?_⟩
  intro rest
  show ((twilioStep j sid).1 ++ (runTwilioLoop (twilioStep j sid).2 rest).1,
    (runTwilioLoop (twilioStep j sid).2 rest).2) = _
  rw [hstep]
  rfl

theorem media_frame_without_payload_appends_empty_witness :
    twilioStep (Json.obj [("event", Json.str "media")]) "S" = ([audioAppendEvent ""], "S") ∧
    runTwilioLoop "S" [.frame (some (Json.obj [("event", Json.str "media")]))] =
      ([audioAppendEvent ""], "S") :=
  ⟨(media_frame_without_payload_appends_empty
      (Json.obj [("event", Json.str "media")]) "S" rfl rfl).1,
   (media_frame_without_payload_appends_empty
      (Json.obj [("event", Json.str "media")]) "S" rfl rfl).2 []⟩

lemma fnCallStep_of_req (oracle : WebhookOracle) (phone : String) (j : Json)
    (args callId : String) (hreq : fnCallRequestOf j = some (args, callId)) :
    fnCallStep oracle phone j = dispatchSchedule oracle phone args callId := by
  unfold fnCallStep
  rw [hreq]

lemma fnCallStep_of_none (oracle : WebhookOracle) (phone : String) (j : Json)
    (hreq : fnCallRequestOf j = none) :
    fnCallStep oracle phone j = Effects.empty := by
  unfold fnCallStep
  rw [hreq]

lemma setupSchedule_of_200 (oracle : WebhookOracle) (n e dt ds ph : String)
    (h : oracle (scheduleBody n e dt ds ph) = .response 200) :
    setupSchedule oracle n e dt ds ph = .ok () := by
  unfold setupSchedule
  rw [h]
  rfl

lemma setupSchedule_of_non200 (oracle : WebhookOracle) (n e dt ds ph : String) (s : Nat)
    (hs : s ≠ 200) (h : oracle (scheduleBody n e dt ds ph) = .response s) :
    setupSchedule oracle n e dt ds ph = .error (.unexpectedStatus s) := by
  unfold setupSchedule
  rw [h]
  exact if_neg hs

lemma setupSchedule_of_transport (oracle : WebhookOracle) (n e dt ds ph : String) (c : String)
    (h : oracle (scheduleBody n e dt ds ph) = .transportErr c) :
    setupSchedule oracle n e dt ds ph = .error (.requestError c) := by
  unfold setupSchedule
  rw [h]

lemma dispatchSchedule_parse_fail (oracle : WebhookOracle) (phone args callId : String)
    (h : unmarshalStringMap args = none) :
    dispatchSchedule oracle phone args callId = Effects.empty := by
  unfold dispatchSchedule
  rw [h]

lemma dispatchSchedule_of_parse (oracle : WebhookOracle) (phone args callId : String)
    (data : List (String × String)) (h : unmarshalStringMap args = some data) :
    dispatchSchedule oracle phone args callId = dispatchParsed oracle phone callId data := by
  unfold dispatchSchedule
  rw [h]

lemma dispatchParsed_of_ok (oracle : WebhookOracle) (phone callId : String)
    (data : List (String × String))
    (hok : setupSchedule oracle (mapGetD data "name") (mapGetD data "email")
      (mapGetD data "datetime") (mapGetD data "description") phone = .ok ()) :
    dispatchParsed oracle phone callId data =
      ⟨[webhookOutputEvent callId, responseCreateJson], [],
       [scheduleBody (mapGetD data "name") (mapGetD data "email")
         (mapGetD data "datetime") (mapGetD data "description") phone]⟩ := by
  unfold dispatchParsed
  rw [hok]

lemma dispatchParsed_of_error (oracle : WebhookOracle) (phone callId : String)
    (data : List (String × String)) (err : ScheduleError)
    (herr : setupSchedule oracle (mapGetD data "name") (mapGetD data "email")
      (mapGetD data "datetime") (mapGetD data "description") phone = .error err) :
    dispatchParsed oracle phone callId data =
      ⟨[], [],
       [scheduleBody (mapGetD data "name") (mapGetD data "email")
         (mapGetD data "datetime") (mapGetD data "description") phone]⟩ := by
  unfold dispatchParsed
  rw [herr]

lemma openAIStep_not_error (oracle : WebhookOracle) (phone sid : String) (j : Json)
    (herr : (getStr j "type").getD "" ≠ "error") :
    openAIStep oracle phone sid j =
      ⟨(fnCallStep oracle phone j).aiWrites,
       audioDeltaWrites sid j ++ (fnCallStep oracle phone j).twilioWrites,
       (fnCallStep oracle phone j).posts⟩ := by
  unfold openAIStep
  rw [if_neg herr]

lemma openAIStep_aiWrites_eq (oracle : WebhookOracle) (phone sid : String) (j : Json) :
    (openAIStep oracle phone sid j).aiWrites =
      if (getStr j "type").getD "" = "error" then [] else (fnCallStep oracle phone j).aiWrites := by
  unfold openAIStep
  by_cases h : (getStr j "type").getD "" = "error" <;> simp [h, Effects.empty]

lemma openAIStep_posts_eq (oracle : WebhookOracle) (phone sid : String) (j : Json) :
    (openAIStep oracle phone sid j).posts =
      if (getStr j "type").getD "" = "error" then [] else (fnCallStep oracle phone j).posts := by
  unfold openAIStep
  by_cases h : (getStr j "type").getD "" = "error" <;> simp [h, Effects.empty]

/-- C5: for a recognized call with parsed arguments, a non-200 webhook
response yields a failure carrying that status code and a transport error
yields a failure carrying its cause; in either case the dispatcher emits
the one POST but writes nothing to either socket, the reader writes no
completion and no trigger, and the loop continues with the next read. -/
theorem webhook_failure_is_logged_and_nonfatal (oracle : WebhookOracle)
    (phone sid args callId : String) (j : Json) (data : List (String × String))
    (hreq : fnCallRequestOf j = some (args, callId))
    (hparse : unmarshalStringMap args = some data) :
    (∀ s : Nat, s ≠ 200 →
      oracle (scheduleBody (mapGetD data "name") (mapGetD data "email")
        (mapGetD data "datetime") (mapGetD data "description") phone) = .response s →
      setupSchedule oracle (mapGetD data "name") (mapGetD data "email")
        (mapGetD data "datetime") (mapGetD data "description") phone =
          .error (.unexpectedStatus s) ∧
      fnCallStep oracle phone j =
        ⟨[], [], [scheduleBody (mapGetD data "name") (mapGetD data "email")
          (mapGetD data "datetime") (mapGetD data "description") phone]⟩ ∧
      (openAIStep oracle phone sid j).aiWrites = []) ∧
    (∀ c : String,
      oracle (scheduleBody (mapGetD data "name") (mapGetD data "email")
        (mapGetD data "datetime") (mapGetD data "description") phone) = .transportErr c →
      setupSchedule oracle (mapGetD data "name") (mapGetD data "email")
        (mapGetD data "datetime") (mapGetD data "description") phone =
          .error (.requestError c) ∧
      fnCallStep oracle phone j =
        ⟨[], [], [scheduleBody (mapGetD data "name") (mapGetD data "email")
          (mapGetD data "datetime") (mapGetD data "description") phone]⟩ ∧
      (openAIStep oracle phone sid j).aiWrites = []) ∧
    (∀ rest : List SocketRead,
      runAILoop oracle phone sid (.frame (some j) :: rest) =
        openAIStep oracle phone sid j ++ runAILoop oracle phone sid rest) := by
  have hstep : ∀ err : ScheduleError,
      setupSchedule oracle (mapGetD data "name") (mapGetD data "email")
        (mapGetD data "datetime") (mapGetD data "description") phone = .error err →
      fnCallStep oracle phone j =
        ⟨[], [], [scheduleBody (mapGetD data "name") (mapGetD data "email")
          (mapGetD data "datetime") (mapGetD data "description") phone]⟩ := by
    intro err herr
    rw [fnCallStep_of_req oracle phone j args callId hreq,
      dispatchSchedule_of_parse oracle phone args callId data hparse,
      dispatchParsed_of_error oracle phone callId data err herr]
  have haiw : fnCallStep oracle phone j =
      ⟨[], [], [scheduleBody (mapGetD data "name") (mapGetD data "email")
        (mapGetD data "datetime") (mapGetD data "description") phone]⟩ →
      (openAIStep oracle phone sid j).aiWrites = [] := by
    intro hfn
    rw [openAIStep_aiWrites_eq, hfn]
    split <;> rfl
  refine ⟨?_, ?_, ?_⟩
  · intro s hs h
    have h1 := setupSchedule_of_non200 oracle (mapGetD data "name") (mapGetD data "email")
      (mapGetD data "datetime") (mapGetD data "description") phone s hs h
    have h2 := hstep _ h1
    exact ⟨h1, h2, haiw h2⟩
  · intro c h
    have h1 := setupSchedule_of_transport oracle (mapGetD data "name") (mapGetD data "email")
      (mapGetD data "datetime") (mapGetD data "description") phone c h
    have h2 := hstep _ h1
    exact ⟨h1, h2, haiw h2⟩
  · intro rest
    rfl

/-- A JSON-encoded `setup_schedule` argument object naming Alice, used by
concrete runs (braces written as character escapes). -/
def aliceArgs : String :=
  "\x7b\"name\":\"Alice\",\"email\":\"a@x.com\",\"datetime\":\"2024-01-01T10:00:00Z\",\"description\":\"demo\"\x7d"

/-- The first output element of a recognized `setup_schedule` call with the
Alice arguments and call id call_1. -/
def fnOutputAlice : Json :=
  .obj [
    ("type", .str "function_call"),
    ("name", .str "setup_schedule"),
    ("arguments", .str aliceArgs),
    ("call_id", .str "call_1")]

/-- A complete AI event of kind `response.done` carrying the Alice
function call. -/
def fnCallEvtAlice : Json :=
  .obj [
    ("type", .str "response.done"),
    ("response", .obj [("output", .arr [fnOutputAlice])])]

/-- A constant webhook oracle answering HTTP 500. -/
def oracle500 : WebhookOracle := fun _ => .response 500

theorem webhook_failure_is_logged_and_nonfatal_witness :
    setupSchedule oracle500 "Alice" "a@x.com" "2024-01-01T10:00:00Z" "demo" "+15550001111" =
      .error (.unexpectedStatus 500) ∧
    fnCallStep oracle500 "+15550001111" fnCallEvtAlice =
      ⟨[], [], [scheduleBody "Alice" "a@x.com" "2024-01-01T10:00:00Z" "demo" "+15550001111"]⟩ ∧
    (openAIStep oracle500 "+15550001111" "S" fnCallEvtAlice).aiWrites = [] :=
  (webhook_failure_is_logged_and_nonfatal oracle500 "+15550001111" "S" aliceArgs "call_1"
    fnCallEvtAlice
    [("name", "Alice"), ("email", "a@x.com"),
     ("datetime", "2024-01-01T10:00:00Z"), ("description", "demo")]
    rfl rfl).1 500 (by decide) rfl

/-- A recognized `setup_schedule` call whose arguments string is the JSON
literal `null`. -/
def fnCallEvtNullArgs : Json :=
  .obj [
    ("type", .str "response.done"),
    ("response", .obj [("output", .arr [.obj [
      ("type", .str "function_call"),
      ("name", .str "setup_schedule"),
      ("arguments", .str "null"),
      ("call_id", .str "call_7")]])])]

/-- C7 counterexample: the arguments string `null` is not valid JSON for a
flat string-to-string mapping, yet the Go decoder accepts it without error
(the target map is set to nil), so that call is not abandoned: indexing
the nil map yields `""` for every field and the webhook is POSTed with
empty fields — and on HTTP 200 the completion event and the trigger are
even written back to the AI socket. -/
theorem null_arguments_still_post_webhook :
    unmarshalStringMap "null" = some [] ∧
    fnCallStep okOracle "p" fnCallEvtNullArgs =
      ⟨[webhookOutputEvent "call_7", responseCreateJson], [],
       [scheduleBody "" "" "" "" "p"]⟩ ∧
    (fnCallStep okOracle "p" fnCallEvtNullArgs).posts ≠ [] :=
  ⟨rfl, rfl, by
    rw [show (fnCallStep okOracle "p" fnCallEvtNullArgs).posts =
      [scheduleBody "" "" "" "" "p"] from rfl]
    exact List.cons_ne_nil _ _⟩

/-- C7 (amended): a recognized `setup_schedule` call whose arguments
string fails the JSON decoding into a string-to-string map — the literal
`null` is not a failure: the decoder accepts it, leaving the map nil — is
abandoned: no webhook POST, no completion event, no trigger, and the AI
reader continues with the next read instead of terminating the session. -/
theorem malformed_fn_arguments_abandon_call (oracle : WebhookOracle)
    (phone sid args callId : String) (j : Json)
    (hreq : fnCallRequestOf j = some (args, callId))
    (hparse : unmarshalStringMap args = none) :
    fnCallStep oracle phone j = Effects.empty ∧
    (openAIStep oracle phone sid j).aiWrites = [] ∧
    (openAIStep oracle phone sid j).posts = [] ∧
    ∀ rest : List SocketRead,
      runAILoop oracle phone sid (.frame (some j) :: rest) =
        openAIStep oracle phone sid j ++ runAILoop oracle phone sid rest := by
  have hfn : fnCallStep oracle phone j = Effects.empty := by
    rw [fnCallStep_of_req oracle phone j args callId hreq,
      dispatchSchedule_parse_fail oracle phone args callId hparse]
  refine ⟨hfn, ?_, ?_, fun rest => rfl⟩
  · rw [openAIStep_aiWrites_eq, hfn]
    split <;> rfl
  · rw [openAIStep_posts_eq, hfn]
    split <;> rfl

/-- A recognized `setup_schedule` call whose arguments string is not valid
JSON. -/
def fnCallEvtBadArgs : Json :=
  .obj [
    ("type", .str "response.done"),
    ("response", .obj [("output", .arr [.obj [
      ("type", .str "function_call"),
      ("name", .str "setup_schedule"),
      ("arguments", .str "not valid json"),
      ("call_id", .str "call_9")]])])]

theorem malformed_fn_arguments_abandon_call_witness :
    fnCallStep okOracle "p" fnCallEvtBadArgs = Effects.empty ∧
    (openAIStep okOracle "p" "S" fnCallEvtBadArgs).aiWrites = [] ∧
    (openAIStep okOracle "p" "S" fnCallEvtBadArgs).posts = [] ∧
    runAILoop okOracle "p" "S" [.frame (some fnCallEvtBadArgs)] =
      openAIStep okOracle "p" "S" fnCallEvtBadArgs ++ runAILoop okOracle "p" "S" [] :=
  have h := malformed_fn_arguments_abandon_call okOracle "p" "S" "not valid json" "call_9"
    fnCallEvtBadArgs rfl rfl
  ⟨h.1, h.2.1, h.2.2.1, h.2.2.2 []⟩

/-- C8: for every accepted `setup_schedule` call, the Webhook Client is
invoked with exactly the parsed argument mapping's name, email, datetime
and description values read with the empty string as default — any field
absent from the mapping is passed as the empty string — plus the session
phone number, with no further validation: the POST happens for every
parsed mapping regardless of the field values or the webhook outcome. -/
theorem absent_fn_arguments_default_to_empty (oracle : WebhookOracle)
    (phone args callId : String) (j : Json) (data : List (String × String))
    (hreq : fnCallRequestOf j = some (args, callId))
    (hparse : unmarshalStringMap args = some data) :
    (fnCallStep oracle phone j).posts =
      [scheduleBody (mapGetD data "name") (mapGetD data "email")
        (mapGetD data "datetime") (mapGetD data "description") phone] ∧
    ∀ k : String, List.lookup k data = none → mapGetD data k = "" := by
  constructor
  · rw [fnCallStep_of_req oracle phone j args callId hreq,
      dispatchSchedule_of_parse oracle phone args callId data hparse]
    unfold dispatchParsed
    split <;> rfl
  · intro k hk
    unfold mapGetD
    rw [hk]
    rfl

/-- A recognized `setup_schedule` call whose arguments carry only a name,
leaving email, datetime and description absent. -/
def fnCallEvtOnlyName : Json :=
  .obj [
    ("type", .str "response.done"),
    ("response", .obj [("output", .arr [.obj [
      ("type", .str "function_call"),
      ("name", .str "setup_schedule"),
      ("arguments", .str "\x7b\"name\":\"Bob\"\x7d"),
      ("call_id", .str "call_2")]])])]

theorem absent_fn_arguments_default_to_empty_witness :
    (fnCallStep okOracle "+15550002222" fnCallEvtOnlyName).posts =
      [scheduleBody "Bob" "" "" "" "+15550002222"] ∧
    mapGetD [("name", "Bob")] "email" = "" :=
  have h := absent_fn_arguments_default_to_empty okOracle "+15550002222"
    "\x7b\"name\":\"Bob\"\x7d" "call_2" fnCallEvtOnlyName [("name", "Bob")] rfl rfl
  ⟨h.1, h.2 "email" rfl⟩

/-- An AI event of kind `error` that nevertheless carries a well-formed
recognized `setup_schedule` function call in its response output. -/
def fnCallEvtErrorType : Json :=
  .obj [
    ("type", .str "error"),
    ("response", .obj [("output", .arr [fnOutputAlice])])]

/-- C4 counterexample: an AI event of kind `error` whose response output is
a well-formed recognized `setup_schedule` call with parseable arguments
produces zero webhook POSTs and zero AI-socket writes, because the reader
skips the whole event before reaching the function-call dispatch; the
claim as stated requires exactly one POST for it. -/
theorem fn_call_inside_error_event_not_dispatched :
    fnCallRequestOf fnCallEvtErrorType = some (aliceArgs, "call_1") ∧
    unmarshalStringMap aliceArgs =
      some [("name", "Alice"), ("email", "a@x.com"),
            ("datetime", "2024-01-01T10:00:00Z"), ("description", "demo")] ∧
    openAIStep okOracle "+15550001111" "S" fnCallEvtErrorType = Effects.empty ∧
    (openAIStep okOracle "+15550001111" "S" fnCallEvtErrorType).posts = [] :=
  ⟨rfl, rfl, rfl, rfl⟩

/-- C4 (amended to events whose kind is not `error`): a recognized
`setup_schedule` call with string fields and arguments parsing to a flat
string map yields exactly one webhook POST carrying the four argument
fields plus the session phone number, and on an HTTP 200 response exactly
one `function_call_output` completion carrying the same call id followed by
exactly one `response.create` trigger on the AI socket. -/
theorem accepted_fn_call_posts_webhook_and_completes (oracle : WebhookOracle)
    (phone sid args callId : String) (j : Json) (data : List (String × String))
    (herr : (getStr j "type").getD "" ≠ "error")
    (hreq : fnCallRequestOf j = some (args, callId))
    (hparse : unmarshalStringMap args = some data)
    (h200 : oracle (scheduleBody (mapGetD data "name") (mapGetD data "email")
      (mapGetD data "datetime") (mapGetD data "description") phone) = .response 200) :
    openAIStep oracle phone sid j =
      ⟨[webhookOutputEvent callId, responseCreateJson],
       audioDeltaWrites sid j,
       [scheduleBody (mapGetD data "name") (mapGetD data "email")
         (mapGetD data "datetime") (mapGetD data "description") phone]⟩ := by
  have hok := setupSchedule_of_200 oracle (mapGetD data "name") (mapGetD data "email")
    (mapGetD data "datetime") (mapGetD data "description") phone h200
  have hfn : fnCallStep oracle phone j =
      ⟨[webhookOutputEvent callId, responseCreateJson], [],
       [scheduleBody (mapGetD data "name") (mapGetD data "email")
         (mapGetD data "datetime") (mapGetD data "description") phone]⟩ := by
    rw [fnCallStep_of_req oracle phone j args callId hreq,
      dispatchSchedule_of_parse oracle phone args callId data hparse,
      dispatchParsed_of_ok oracle phone callId data hok]
  rw [openAIStep_not_error oracle phone sid j herr, hfn]
  rw [List.append_nil]

theorem accepted_fn_call_posts_webhook_and_completes_witness :
    openAIStep okOracle "+15550001111" "S" fnCallEvtAlice =
      ⟨[webhookOutputEvent "call_1", responseCreateJson],
       [],
       [scheduleBody "Alice" "a@x.com" "2024-01-01T10:00:00Z" "demo" "+15550001111"]⟩ :=
  accepted_fn_call_posts_webhook_and_completes okOracle "+15550001111" "S" aliceArgs "call_1"
    fnCallEvtAlice
    [("name", "Alice"), ("email", "a@x.com"),
     ("datetime", "2024-01-01T10:00:00Z"), ("description", "demo")]
    (by decide) rfl rfl rfl

lemma fnCallRequestOf_none_of_bad_field (j : Json) (rf : List (String × Json))
    (firstOutput : Json) (outRest : List Json)
    (hresp : j.lookup "response" = some (.obj rf))
    (hout : List.lookup "output" rf = some (.arr (firstOutput :: outRest)))
    (hbad : getStr firstOutput "type" = none ∨ getStr firstOutput "name" = none ∨
            getStr firstOutput "arguments" = none ∨ getStr firstOutput "call_id" = none) :
    fnCallRequestOf j = none := by
  unfold fnCallRequestOf
  simp only [hresp, hout]
  cases h1 : getStr firstOutput "type" <;>
    cases h2 : getStr firstOutput "name" <;>
      cases h3 : getStr firstOutput "arguments" <;>
        cases h4 : getStr firstOutput "call_id" <;>
          simp_all

/-- A `response.audio.delta` AI event that also carries a response output
whose first element lacks the name, arguments and call id fields. -/
def hybridDeltaEvt : Json :=
  .obj [
    ("type", .str "response.audio.delta"),
    ("delta", .str "QUJD"),
    ("response", .obj [("output", .arr [.obj [("type", .str "function_call")]])])]

/-- C6 counterexample: an AI event carrying both a string audio delta and a
response output whose first element is missing the `name`, `arguments` and
`call_id` strings is not wholly ignored — the reader still writes the
forwarded media event to the telephony socket, so "no write to either
socket" fails at this input. -/
theorem bad_fn_fields_event_still_forwards_audio :
    (hybridDeltaEvt.lookup "response" =
      some (.obj [("output", .arr [.obj [("type", .str "function_call")]])])) ∧
    getStr (.obj [("type", .str "function_call")]) "name" = none ∧
    (openAIStep okOracle "p" "S" hybridDeltaEvt).twilioWrites = [mediaEvent "S" "QUJD"] ∧
    (openAIStep okOracle "p" "S" hybridDeltaEvt).twilioWrites ≠ [] :=
  ⟨rfl, rfl, rfl, by
    rw [show (openAIStep okOracle "p" "S" hybridDeltaEvt).twilioWrites =
      [mediaEvent "S" "QUJD"] from rfl]
    exact List.cons_ne_nil _ _⟩

/-- C6 (amended): an AI event carrying a response object with a non-empty
output list whose first element lacks one of the string fields `type`,
`name`, `arguments`, `call_id` has its function call silently ignored — no
webhook POST, no AI-socket write, and no telephony write beyond the
audio-delta forwarding the same event independently triggers — and the
reader loop continues with the next event; no failure occurs (the step is
a total function). -/
theorem bad_fn_fields_silently_ignored (oracle : WebhookOracle) (phone sid : String)
    (j : Json) (rf : List (String × Json)) (firstOutput : Json) (outRest : List Json)
    (hresp : j.lookup "response" = some (.obj rf))
    (hout : List.lookup "output" rf = some (.arr (firstOutput :: outRest)))
    (hbad : getStr firstOutput "type" = none ∨ getStr firstOutput "name" = none ∨
            getStr firstOutput "arguments" = none ∨ getStr firstOutput "call_id" = none) :
    fnCallStep oracle phone j = Effects.empty ∧
    (openAIStep oracle phone sid j).aiWrites = [] ∧
    (openAIStep oracle phone sid j).posts = [] ∧
    (openAIStep oracle phone sid j).twilioWrites =
      (if (getStr j "type").getD "" = "error" then [] else audioDeltaWrites sid j) ∧
    ∀ rest : List SocketRead,
      runAILoop oracle phone sid (.frame (some j) :: rest) =
        openAIStep oracle phone sid j ++ runAILoop oracle phone sid rest := by
  have hfn : fnCallStep oracle phone j = Effects.empty :=
    fnCallStep_of_none oracle phone j
      (fnCallRequestOf_none_of_bad_field j rf firstOutput outRest hresp hout hbad)
  refine ⟨hfn, ?_, ?_, openAIStep_twilioWrites oracle phone sid j, fun rest => rfl⟩
  · rw [openAIStep_aiWrites_eq, hfn]
    split <;> rfl
  · rw [openAIStep_posts_eq, hfn]
    split <;> rfl

/-- A function-call event of kind `response.done` whose first output
element has a non-string `arguments` field. -/
def fnCallEvtNonStringArgs : Json :=
  .obj [
    ("type", .str "response.done"),
    ("response", .obj [("output", .arr [.obj [
      ("type", .str "function_call"),
      ("name", .str "setup_schedule"),
      ("arguments", .num (7 : Rat)),
      ("call_id", .str "call_3")]])])]

theorem bad_fn_fields_silently_ignored_witness :
    fnCallStep okOracle "p" fnCallEvtNonStringArgs = Effects.empty ∧
    (openAIStep okOracle "p" "S" fnCallEvtNonStringArgs).aiWrites = [] ∧
    (openAIStep okOracle "p" "S" fnCallEvtNonStringArgs).posts = [] ∧
    runAILoop okOracle "p" "S" [.frame (some fnCallEvtNonStringArgs)] =
      openAIStep okOracle "p" "S" fnCallEvtNonStringArgs ++ runAILoop okOracle "p" "S" [] :=
  have h := bad_fn_fields_silently_ignored okOracle "p" "S" fnCallEvtNonStringArgs
    [("output", .arr [.obj [
      ("type", .str "function_call"),
      ("name", .str "setup_schedule"),
      ("arguments", .num (7 : Rat)),
      ("call_id", .str "call_3")]])]
    (.obj [
      ("type", .str "function_call"),
      ("name", .str "setup_schedule"),
      ("arguments", .num (7 : Rat)),
      ("call_id", .str "call_3")]) []
    rfl rfl (Or.inr (Or.inr (Or.inl rfl)))
  ⟨h.1, h.2.1, h.2.2.1, h.2.2.2.2 []⟩
